import Mathlib

/-
Verification of the drawing-session / waypoint-sequence engine of the
vite-project map application (App component in the unnamed main source file,
plus Dropdown.jsx).

The embedding mirrors the React component state and the handlers:
  * `AppState` holds the component state (`waypoints`, `drawingMode`,
    `drawType`, `selectedWaypoint`), the ref `drawRef`, and the set of Draw
    interactions currently attached to the map (`interactions`), plus a
    counter used to give each created Draw interaction an identity, standing
    in for JavaScript object identity.
  * A `Session` value models one `Draw` interaction together with the values
    its `drawend` closure captured at creation time: the render-time
    `waypoints` array and the render-time `selectedWaypoint`.  React state
    setters called inside an event handler are batched and only land after
    the handler returns, so a closure created in that same handler still sees
    the previous values; the model therefore records the captured values in
    the session and applies scheduled updates afterwards.
  * JavaScript `Array.prototype.splice` is modelled by `jsSpliceInsert`,
    including the ECMAScript start-index normalisation (negative start counts
    from the end clamped at 0, a too-large start clamps to the length), and
    `null` coercing to 0 in arithmetic positions (`selNum`).
  * The Enter-key handler reads the current sketch feature of the Draw
    overlay; that external read is passed in as an `Option (List Pos)`
    argument, `none` meaning the overlay feature collection is empty (no
    vertex captured yet), in which case `getFeatures()[0]` is `undefined`
    and the subsequent `.getGeometry()` access throws; the model returns
    `Except.error` there.
-/

namespace RouteDraw

/-- A raw map coordinate as delivered by the gesture backend. -/
abbrev Pos := Int × Int

/-- The side chosen in the Dropdown menu: Insert Polygon Before / After. -/
inductive Side where
  | before : Side
  | after : Side
deriving DecidableEq

/-- The geometry kind passed to the Draw interaction. -/
inductive GeomType where
  | lineString : GeomType
  | polygon : GeomType
deriving DecidableEq

/-- One element of the `waypoints` state array: the object literal
`{ wp: ..., coordinates: c }` built in the handlers. -/
structure Waypoint where
  wp : String
  coordinates : Pos
deriving DecidableEq

/-- One `Draw` interaction together with the values captured by its `drawend`
closure at creation time.  `sid` stands in for JavaScript object identity. -/
structure Session where
  sid : Nat
  geomType : GeomType
  insertPosition : Option Side
  capturedWaypoints : List Waypoint
  capturedSelected : Option Nat
deriving DecidableEq

/-- The App component's state, refs, and the interactions attached to the
map.  `hasMap` models the `map` state being initialised (the `if (!map)
return` guard); the initial-mount window before the map effect runs is
covered by `hasMap = false`. -/
structure AppState where
  hasMap : Bool
  waypoints : List Waypoint
  drawingMode : Option GeomType
  drawType : Option GeomType
  selectedWaypoint : Option Nat
  drawRef : Option Session
  interactions : List Session
  nextSid : Nat
deriving DecidableEq

/-- `String.padStart(targetLen, c)` for a single-character pad. -/
def padStart (s : String) (targetLen : Nat) (c : Char) : String :=
  String.mk (List.replicate (targetLen - s.length) c) ++ s

/-- The label stored on a waypoint at creation:
`"WP(" + index.toString().padStart(2, '0') + ")"`. -/
def wpLabel (i : Nat) : String :=
  "WP(" ++ padStart (toString i) 2 '0' ++ ")"

/-- `coords.map((c, index) => ({ wp: wpLabel(index), coordinates: c }))`,
unrolled with an explicit running index. -/
def formatFrom (i : Nat) : List Pos → List Waypoint
  | [] => []
  | c :: cs => { wp := wpLabel i, coordinates := c } :: formatFrom (i + 1) cs

/-- The `formattedCoords` computation of both completion handlers. -/
def formatCoords (coords : List Pos) : List Waypoint :=
  formatFrom 0 coords

/-- ECMAScript normalisation of the `start` argument of
`Array.prototype.splice` for an array of length `len`: a negative start is
`max(len + start, 0)` (counting from the end), otherwise `min(start, len)`. -/
def jsSpliceStart (len : Nat) (start : Int) : Nat :=
  if start < 0 then ((len : Int) + start).toNat else min start.toNat len

/-- `arr.splice(start, 0, ...items)` as a pure function: inserts `items` as a
contiguous block at the normalised start offset. -/
def jsSpliceInsert (l : List α) (start : Int) (items : List α) : List α :=
  l.take (jsSpliceStart l.length start) ++ items ++ l.drop (jsSpliceStart l.length start)

/-- JavaScript numeric coercion of the `selectedWaypoint` state when used as
a splice index or in `selectedWaypoint + 1`: `null` coerces to 0. -/
def selNum : Option Nat → Int
  | none => 0
  | some i => (i : Int)

/-- The session a call to `addDrawingInteraction` creates from the current
render's state: the `drawend` closure captures `waypoints`,
`selectedWaypoint` and the `insertPosition` argument. -/
def mkSession (s : AppState) (type : GeomType) (insertPosition : Option Side) : Session :=
  { sid := s.nextSid
    geomType := type
    insertPosition := insertPosition
    capturedWaypoints := s.waypoints
    capturedSelected := s.selectedWaypoint }

/-- `addDrawingInteraction(type, insertPosition)`: returns early when the map
is not initialised; otherwise creates a new Draw interaction, stores it in
`drawRef`, adds it to the map (the previous interaction is NOT removed), and
sets `drawingMode`. -/
def addDrawingInteraction (type : GeomType) (insertPosition : Option Side) (s : AppState) :
    AppState :=
  if s.hasMap then
    { s with
      drawRef := some (mkSession s type insertPosition)
      interactions := s.interactions ++ [mkSession s type insertPosition]
      drawingMode := some type
      nextSid := s.nextSid + 1 }
  else s

/-- The `drawend` handler of the session `sess`, fired with the completed
gesture's coordinate list, acting on the current state `s`.  The insert
branch splices into a copy of the closure-captured `waypoints` snapshot at
the closure-captured `selectedWaypoint`; the append branch uses the
functional update `prev => [...prev, ...formattedCoords]`. -/
def drawendFire (sess : Session) (coords : List Pos) (s : AppState) : AppState :=
  let formatted := formatCoords coords
  let newWaypoints :=
    match sess.insertPosition with
    | some Side.before =>
        jsSpliceInsert sess.capturedWaypoints (selNum sess.capturedSelected) formatted
    | some Side.after =>
        jsSpliceInsert sess.capturedWaypoints (selNum sess.capturedSelected + 1) formatted
    | none => s.waypoints ++ formatted
  { s with
    waypoints := newWaypoints
    drawingMode := none
    drawType := some sess.geomType }

/-- The Dropdown `onSelect` wiring in the waypoint list:
`setSelectedWaypoint(index); addDrawingInteraction('Polygon', position)`.
The geometry kind is hard-coded to Polygon for both menu items.  Because the
`setSelectedWaypoint` update is batched, the session created by
`addDrawingInteraction` captures the previous `selectedWaypoint`; the new
value lands when the handler returns. -/
def dropdownSelect (index : Nat) (pos : Side) (s : AppState) : AppState :=
  { addDrawingInteraction GeomType.polygon (some pos) s with
    selectedWaypoint := some index }

/-- The `handleKeyDown` handler restricted to the Enter key.
`overlayCoords` is the coordinate list of the first feature of the Draw
overlay source, `none` when that feature collection is empty: in that case
`getFeatures()[0]` is `undefined` and `.getGeometry()` throws a TypeError,
modelled as `Except.error`.  Note `map.removeInteraction(draw)` has already
run when the throw happens. -/
def handleKeyDownEnter (overlayCoords : Option (List Pos)) (s : AppState) :
    Except String AppState :=
  match s.drawingMode with
  | none => Except.ok s
  | some _ =>
    match s.drawRef with
    | some draw =>
      let s1 := { s with interactions := s.interactions.erase draw }
      match overlayCoords with
      | none => Except.error "TypeError: cannot read getGeometry of undefined"
      | some coords =>
          Except.ok
            { s1 with
              waypoints := s1.waypoints ++ formatCoords coords
              drawingMode := none
              drawRef := none }
    | none => Except.ok { s with drawingMode := none, drawRef := none }

/-- Component state right after mount and map initialisation. -/
def initialState : AppState :=
  { hasMap := true
    waypoints := []
    drawingMode := none
    drawType := none
    selectedWaypoint := none
    drawRef := none
    interactions := []
    nextSid := 0 }

/-- Fires the `drawend` of the interaction currently referenced by `drawRef`
(the one the user is actively drawing with); no-op when idle. -/
def fireOnRef (coords : List Pos) (s : AppState) : AppState :=
  match s.drawRef with
  | some sess => drawendFire sess coords s
  | none => s

/-- Projection of the Enter-handler result onto the waypoint sequence,
`none` when the handler threw. -/
def okWaypoints : Except String AppState → Option (List Waypoint)
  | Except.ok s => some s.waypoints
  | Except.error _ => none

/-! ### General lemmas about the embedded operations -/

theorem formatFrom_map_coordinates (i : Nat) (cs : List Pos) :
    (formatFrom i cs).map Waypoint.coordinates = cs := by
  induction cs generalizing i with
  | nil => rfl
  | cons c cs ih => simp [formatFrom, ih]

theorem formatCoords_map_coordinates (cs : List Pos) :
    (formatCoords cs).map Waypoint.coordinates = cs :=
  formatFrom_map_coordinates 0 cs

theorem formatFrom_length (i : Nat) (cs : List Pos) :
    (formatFrom i cs).length = cs.length := by
  induction cs generalizing i with
  | nil => rfl
  | cons c cs ih => simp [formatFrom, ih]

theorem formatCoords_length (cs : List Pos) :
    (formatCoords cs).length = cs.length :=
  formatFrom_length 0 cs

theorem jsSpliceStart_coe (len n : Nat) :
    jsSpliceStart len (n : Int) = min n len := by
  unfold jsSpliceStart
  split <;> omega

theorem jsSpliceInsert_coe (l : List α) (n : Nat) (items : List α) :
    jsSpliceInsert l (n : Int) items =
      l.take (min n l.length) ++ items ++ l.drop (min n l.length) := by
  unfold jsSpliceInsert
  rw [jsSpliceStart_coe]

theorem jsSpliceInsert_coe_of_le (l : List α) (n : Nat) (items : List α)
    (h : n ≤ l.length) :
    jsSpliceInsert l (n : Int) items = l.take n ++ items ++ l.drop n := by
  rw [jsSpliceInsert_coe, Nat.min_eq_left h]

theorem jsSpliceInsert_nil (l : List α) (start : Int) :
    jsSpliceInsert l start [] = l := by
  unfold jsSpliceInsert
  simp

/-! ### Concrete states used by the claims -/

/-- The end-to-end spec scenario: draw a LineString with three vertices,
pick "Insert Polygon Before" on the waypoint at index 1, draw a two-vertex
polygon, and let its gesture finish. -/
def endToEndRun : AppState :=
  fireOnRef [(9,9), (8,8)]
    (dropdownSelect 1 Side.before
      (fireOnRef [(0,0), (1,1), (2,2)]
        (addDrawingInteraction GeomType.lineString none initialState)))

/-- The waypoint sequence the claim predicts for `endToEndRun`: positional,
zero-padded labels over the spliced-at-1 sequence. -/
def claimedEndToEndSeq : List Waypoint :=
  [⟨"WP(00)", (0,0)⟩, ⟨"WP(01)", (9,9)⟩, ⟨"WP(02)", (8,8)⟩,
   ⟨"WP(03)", (1,1)⟩, ⟨"WP(04)", (2,2)⟩]

/-! ### C1 -/

/-- C1 counterexample: in the end-to-end scenario (insert two points before
index 1 into a three-point sequence) the displayed sequence is NOT the
claimed positionally-labelled
[WP(00)@(0,0), WP(01)@(9,9), WP(02)@(8,8), WP(03)@(1,1), WP(04)@(2,2)];
the displayed labels come from the `wp` field stored on each waypoint when
its gesture completed. -/
theorem c1_storedLabels_counterexample :
    endToEndRun.waypoints ≠ claimedEndToEndSeq := by
  decide

/-- C1 amended: labels are stored on each waypoint at creation time, as the
zero-padded index of the vertex within its own gesture, and are never
recomputed; moreover, because the drawend closure captures the
`selectedWaypoint` value from before the dropdown click (initially null,
which `splice` coerces to 0), the insertion lands at offset 0.  The
end-to-end scenario therefore displays
[WP(00)@(9,9), WP(01)@(8,8), WP(00)@(0,0), WP(01)@(1,1), WP(02)@(2,2)]. -/
theorem c1_amended_storedGestureLabels :
    endToEndRun.waypoints =
      [⟨"WP(00)", (9,9)⟩, ⟨"WP(01)", (8,8)⟩, ⟨"WP(00)", (0,0)⟩,
       ⟨"WP(01)", (1,1)⟩, ⟨"WP(02)", (2,2)⟩] := by
  rfl

/-! ### C8 -/

/-- C8: the conversion of a completed gesture's raw vertex list to waypoints
(the `coords.map` of the drawend handler) is a pure function that preserves
length and maps the i-th input vertex to the i-th output's coordinates
unchanged (no sorting, dedup, or simplification): projecting the output back
to coordinates gives exactly the input list. -/
theorem c8_formatPreservesCoords (coords : List Pos) :
    (formatCoords coords).map Waypoint.coordinates = coords ∧
    (formatCoords coords).length = coords.length :=
  ⟨formatCoords_map_coordinates coords, formatCoords_length coords⟩

/-! ### C4 -/

/-- C4: with a session whose captured splice target `i` is a valid index of
the captured sequence `S` and a non-empty vertex block `P`, completion via
the gesture path inserts the formatted block contiguously at offset `i`
(side = before) resp. `i + 1` (side = after): the result is
`take ++ block ++ drop`, so pre-existing elements at or past the offset are
shifted right by `len P` with relative order preserved, and the block's
coordinates are exactly `P` in order. -/
theorem c4_insertionSpliceExact (s : AppState) (sess : Session) (i : Nat) (P : List Pos)
    (hi : sess.capturedSelected = some i)
    (hlen : i < sess.capturedWaypoints.length)
    (hP : P ≠ []) :
    (sess.insertPosition = some Side.before →
      (drawendFire sess P s).waypoints =
        sess.capturedWaypoints.take i ++ formatCoords P ++ sess.capturedWaypoints.drop i) ∧
    (sess.insertPosition = some Side.after →
      (drawendFire sess P s).waypoints =
        sess.capturedWaypoints.take (i+1) ++ formatCoords P ++
          sess.capturedWaypoints.drop (i+1)) ∧
    (formatCoords P).map Waypoint.coordinates = P := by
  refine ⟨?_, ?_, formatCoords_map_coordinates P⟩
  · intro hside
    simp only [drawendFire, hside, hi, selNum]
    exact jsSpliceInsert_coe_of_le _ i _ (Nat.le_of_lt hlen)
  · intro hside
    simp only [drawendFire, hside, hi, selNum]
    have hcast : ((i : Int) + 1) = ((i + 1 : Nat) : Int) := by push_cast; ring
    rw [hcast]
    exact jsSpliceInsert_coe_of_le _ (i+1) _ (by omega)

/-- A concrete session for the C4 witness: two captured waypoints, target
index 1, side = before. -/
def sessW4 : Session :=
  ⟨7, GeomType.polygon, some Side.before,
    [⟨"WP(00)", (0,0)⟩, ⟨"WP(01)", (1,1)⟩], some 1⟩

/-- C4 witness: the theorem applied at a concrete session and vertex block. -/
theorem c4_insertionSpliceExact_w :
    (drawendFire sessW4 [(5,5)] initialState).waypoints =
      [⟨"WP(00)", (0,0)⟩, ⟨"WP(00)", (5,5)⟩, ⟨"WP(01)", (1,1)⟩] := by
  rw [(c4_insertionSpliceExact initialState sessW4 1 [(5,5)] rfl (by decide)
    (by decide)).1 rfl]
  rfl

/-! ### C10 -/

/-- C10: completing a session with a pending insertion rebuilds the sequence
from the session's begin-time snapshot only — the result is the same
whatever the sequence looks like at completion time, so intervening changes
are discarded — while the append branch (no pending insertion) applies its
change to the sequence as it stands at completion time. -/
theorem c10_insertIgnoresCurrent (sess : Session) (s s2 : AppState) (coords : List Pos) :
    (sess.insertPosition ≠ none →
      (drawendFire sess coords s).waypoints = (drawendFire sess coords s2).waypoints) ∧
    (sess.insertPosition = none →
      (drawendFire sess coords s).waypoints = s.waypoints ++ formatCoords coords) := by
  constructor
  · intro hne
    match h : sess.insertPosition with
    | none => exact absurd h hne
    | some Side.before => simp [drawendFire, h]
    | some Side.after => simp [drawendFire, h]
  · intro h
    simp [drawendFire, h]

/-- A session with a pending insertion used by the C10 witness. -/
def sessW10 : Session :=
  ⟨3, GeomType.polygon, some Side.after, [⟨"WP(00)", (4,4)⟩], some 0⟩

/-- A completion-time state for the C10 witness whose sequence differs from
the snapshot captured by `sessW10`. -/
def stateW10 : AppState :=
  { initialState with waypoints := [⟨"WP(00)", (6,6)⟩, ⟨"WP(01)", (7,7)⟩] }

/-- C10 witness: the theorem applied at a concrete session and two distinct
completion-time states. -/
theorem c10_insertIgnoresCurrent_w :
    (drawendFire sessW10 [(2,2)] stateW10).waypoints =
      (drawendFire sessW10 [(2,2)] initialState).waypoints :=
  (c10_insertIgnoresCurrent sessW10 stateW10 initialState [(2,2)]).1 (by decide)

/-! ### C5 -/

/-- A reachable state for the C5 counterexample: an insert-mode session is
begun while the sequence is empty (its closure captures the empty snapshot),
then a second, append-mode session is begun and completed with one vertex,
so the sequence now holds one waypoint while the first session is still
attached to the map. -/
def stateC5 : AppState :=
  fireOnRef [(1,1)]
    (addDrawingInteraction GeomType.lineString none
      (dropdownSelect 0 Side.before initialState))

/-- The first (insert-mode) session attached in `stateC5`: created by
`dropdownSelect 0 before` on the initial state, so it captured the empty
waypoint snapshot and the initial null selection. -/
def sessC5 : Session := ⟨0, GeomType.polygon, some Side.before, [], none⟩

/-- C5 counterexample: completing the still-attached insert-mode session
`sessC5` with an EMPTY vertex list changes the size of the waypoint
sequence (from 1 back to the captured snapshot's 0), contradicting "never
changes the waypoint sequence's size or contents ... for every prior
state". -/
theorem c5_emptyCompletion_counterexample :
    sessC5 ∈ stateC5.interactions ∧
    stateC5.waypoints.length = 1 ∧
    (drawendFire sessC5 [] stateC5).waypoints.length ≠ stateC5.waypoints.length := by
  decide

/-- C5 amended: completing with an empty raw vertex list inserts nothing,
but the insert branch still REPLACES the sequence with the session's
begin-time snapshot (so size and contents change whenever the sequence was
mutated after the session began); only the append branch leaves the
completion-time sequence unchanged.  `drawingMode` returns to idle in every
case. -/
theorem c5_amended_emptyCompletion (sess : Session) (s : AppState) :
    ((drawendFire sess [] s).waypoints =
      match sess.insertPosition with
      | none => s.waypoints
      | some _ => sess.capturedWaypoints) ∧
    (drawendFire sess [] s).drawingMode = none := by
  refine ⟨?_, rfl⟩
  match h : sess.insertPosition with
  | none => simp [drawendFire, h, formatCoords, formatFrom]
  | some Side.before => simp [drawendFire, h, formatCoords, formatFrom, jsSpliceInsert_nil]
  | some Side.after => simp [drawendFire, h, formatCoords, formatFrom, jsSpliceInsert_nil]

/-! ### C2 -/

/-- A state with an active insert-mode session, reached by drawing one
waypoint and then picking "Insert Polygon Before" on it. -/
def stateC2 : AppState :=
  dropdownSelect 0 Side.before
    (fireOnRef [(0,0)] (addDrawingInteraction GeomType.lineString none initialState))

/-- The active insert-mode session of `stateC2` (the value of `drawRef`). -/
def sessC2 : Session :=
  ⟨1, GeomType.polygon, some Side.before, [⟨"WP(00)", (0,0)⟩], none⟩

/-- C2 counterexample: for the active insert-mode session of `stateC2` and
the captured vertex list [(9,9)], the Enter-key path produces a different
waypoint sequence than the gesture-finished path: the gesture path splices
at the target, the Enter path appends at the end. -/
theorem c2_enterPath_counterexample :
    stateC2.drawRef = some sessC2 ∧
    okWaypoints (handleKeyDownEnter (some [(9,9)]) stateC2) ≠
      some ((fireOnRef [(9,9)] stateC2).waypoints) := by
  decide

/-- C2 amended: the two completion paths do NOT share the splice logic.
Whenever a session is active (drawingMode set, drawRef set), the Enter-key
path ignores any pending insertion and always appends the formatted captured
vertices to the end of the completion-time sequence, removing the
interaction and clearing the session. -/
theorem c2_amended_enterAppends (s : AppState) (g : GeomType) (draw : Session)
    (coords : List Pos)
    (hm : s.drawingMode = some g) (hr : s.drawRef = some draw) :
    handleKeyDownEnter (some coords) s =
      Except.ok
        { s with
          interactions := s.interactions.erase draw
          waypoints := s.waypoints ++ formatCoords coords
          drawingMode := none
          drawRef := none } := by
  simp [handleKeyDownEnter, hm, hr]

/-- C2 witness: the amended theorem applied at `stateC2` with one captured
vertex. -/
theorem c2_amended_enterAppends_w :
    handleKeyDownEnter (some [(9,9)]) stateC2 =
      Except.ok
        { stateC2 with
          interactions := stateC2.interactions.erase sessC2
          waypoints := stateC2.waypoints ++ formatCoords [(9,9)]
          drawingMode := none
          drawRef := none } :=
  c2_amended_enterAppends stateC2 GeomType.polygon sessC2 [(9,9)] (by decide) (by decide)

/-! ### C3 -/

/-- Two sessions begun back to back without an intervening completion or
cancel. -/
def stateC3 : AppState :=
  addDrawingInteraction GeomType.polygon none
    (addDrawingInteraction GeomType.lineString none initialState)

/-- The first of the two sessions begun in `stateC3`. -/
def sessC3first : Session := ⟨0, GeomType.lineString, none, [], none⟩

/-- C3 counterexample: after `beginSession` twice, TWO Draw interactions are
attached to the map (the first is never removed), and the first session's
completion handler still mutates the waypoint sequence — so it is false
that exactly one session is active and that the replaced session's
completion can no longer mutate the sequence. -/
theorem c3_secondBegin_counterexample :
    stateC3.interactions.length = 2 ∧
    sessC3first ∈ stateC3.interactions ∧
    (drawendFire sessC3first [(1,1)] stateC3).waypoints ≠ stateC3.waypoints := by
  decide

/-- C3 amended: a second `beginSession` does not discard the first: both
interactions stay attached to the map (only `drawRef`, the Enter-path
target, moves to the second one), and completing the first session still
mutates the waypoint sequence (here: appends its non-empty formatted block,
changing the sequence). -/
theorem c3_amended_bothAttached (s : AppState) (t1 t2 : GeomType)
    (p2 : Option Side) (hm : s.hasMap = true) :
    (mkSession s t1 none ∈
      (addDrawingInteraction t2 p2 (addDrawingInteraction t1 none s)).interactions) ∧
    ((addDrawingInteraction t2 p2 (addDrawingInteraction t1 none s)).drawRef =
      some (mkSession (addDrawingInteraction t1 none s) t2 p2)) ∧
    (∀ coords : List Pos, coords ≠ [] →
      (drawendFire (mkSession s t1 none) coords
          (addDrawingInteraction t2 p2 (addDrawingInteraction t1 none s))).waypoints ≠
        (addDrawingInteraction t2 p2 (addDrawingInteraction t1 none s)).waypoints) := by
  have h1 : addDrawingInteraction t1 none s =
      { s with
        drawRef := some (mkSession s t1 none)
        interactions := s.interactions ++ [mkSession s t1 none]
        drawingMode := some t1
        nextSid := s.nextSid + 1 } := by
    simp [addDrawingInteraction, hm]
  rw [h1]
  refine ⟨?_, ?_, ?_⟩
  · simp [addDrawingInteraction, hm]
  · simp [addDrawingInteraction, hm]
  · intro coords hc
    simp only [drawendFire, mkSession]
    intro heq
    have hlen := congrArg List.length heq
    simp only [List.length_append, formatCoords_length] at hlen
    have hclen : coords.length = 0 := by omega
    exact hc (List.length_eq_zero.mp hclen)

/-- C3 witness: the amended theorem applied at the initial state with a
LineString session begun first and a Polygon session begun second. -/
theorem c3_amended_bothAttached_w :
    mkSession initialState GeomType.lineString none ∈
      (addDrawingInteraction GeomType.polygon none
        (addDrawingInteraction GeomType.lineString none initialState)).interactions :=
  (c3_amended_bothAttached initialState GeomType.lineString GeomType.polygon none rfl).1

/-! ### C6 -/

/-- A reachable state for the C6 counterexample.  Built by: beginning an
insert-mode session on the empty sequence; drawing four waypoints with an
append-mode session; selecting "insert before index 2" twice (the second
session is the one that captures `selectedWaypoint = 2`, because each
drawend closure sees the selection from before its own click); and finally
completing the very first insert-mode session with one vertex, which resets
the sequence to its captured empty snapshot plus that vertex.  The current
sequence now has length 1 while the pending session `sessC6` carries a
four-waypoint snapshot and target index 2. -/
def stateC6 : AppState :=
  drawendFire ⟨0, GeomType.polygon, some Side.before, [], none⟩ [(7,7)]
    (dropdownSelect 2 Side.before
      (dropdownSelect 2 Side.before
        (fireOnRef [(0,0), (1,1), (2,2), (3,3)]
          (addDrawingInteraction GeomType.lineString none
            (dropdownSelect 0 Side.before initialState)))))

/-- The pending insert-mode session of `stateC6`: captured the four-waypoint
snapshot and target index 2, both stale with respect to the current
length-1 sequence. -/
def sessC6 : Session :=
  ⟨3, GeomType.polygon, some Side.before,
    [⟨"WP(00)", (0,0)⟩, ⟨"WP(01)", (1,1)⟩, ⟨"WP(02)", (2,2)⟩, ⟨"WP(03)", (3,3)⟩],
    some 2⟩

/-- C6 counterexample: at completion time the current sequence has length 1,
so the insertion target 2 is no longer within [0, length); the claim says
the block is then inserted at the nearest valid bound of the (current)
sequence, i.e. the result would be the block prepended or appended to the
current sequence — but the code splices into the stale four-waypoint
snapshot instead, producing neither. -/
theorem c6_staleIndex_counterexample :
    stateC6.waypoints.length = 1 ∧
    sessC6 ∈ stateC6.interactions ∧
    sessC6.capturedSelected = some 2 ∧
    (drawendFire sessC6 [(5,5)] stateC6).waypoints ≠
      formatCoords [(5,5)] ++ stateC6.waypoints ∧
    (drawendFire sessC6 [(5,5)] stateC6).waypoints ≠
      stateC6.waypoints ++ formatCoords [(5,5)] := by
  decide

/-- C6 amended: completion with an out-of-range target index still succeeds
and clamps, but against the session's begin-time SNAPSHOT, not the current
sequence: the splice offset is `min index snapshotLength` for side = before
and `min (index+1) snapshotLength` for side = after, and the block is
spliced into the snapshot.  (A negative target index cannot arise: the
selection is always a list index or the initial null, which coerces to
offset 0.) -/
theorem c6_amended_clampToSnapshot (s : AppState) (sess : Session) (i : Nat)
    (P : List Pos) (hi : sess.capturedSelected = some i) :
    (sess.insertPosition = some Side.before →
      (drawendFire sess P s).waypoints =
        sess.capturedWaypoints.take (min i sess.capturedWaypoints.length) ++
          formatCoords P ++
          sess.capturedWaypoints.drop (min i sess.capturedWaypoints.length)) ∧
    (sess.insertPosition = some Side.after →
      (drawendFire sess P s).waypoints =
        sess.capturedWaypoints.take (min (i+1) sess.capturedWaypoints.length) ++
          formatCoords P ++
          sess.capturedWaypoints.drop (min (i+1) sess.capturedWaypoints.length)) := by
  constructor
  · intro hside
    simp only [drawendFire, hside, hi, selNum]
    exact jsSpliceInsert_coe _ i _
  · intro hside
    simp only [drawendFire, hside, hi, selNum]
    have hcast : ((i : Int) + 1) = ((i + 1 : Nat) : Int) := by push_cast; ring
    rw [hcast]
    exact jsSpliceInsert_coe _ (i+1) _

/-- A session with a target index (10) far past its one-waypoint snapshot,
for the C6 witness. -/
def sessW6 : Session :=
  ⟨9, GeomType.polygon, some Side.before, [⟨"WP(00)", (0,0)⟩], some 10⟩

/-- C6 witness: the amended theorem applied at a session whose target index
10 exceeds the snapshot length 1, showing the offset clamps to the
snapshot's end. -/
theorem c6_amended_clampToSnapshot_w :
    (drawendFire sessW6 [(5,5)] initialState).waypoints =
      [⟨"WP(00)", (0,0)⟩, ⟨"WP(00)", (5,5)⟩] := by
  rw [(c6_amended_clampToSnapshot initialState sessW6 10 [(5,5)] rfl).1 rfl]
  rfl

/-! ### C7 -/

/-- A state with a freshly begun session and no vertex captured yet. -/
def stateC7 : AppState := addDrawingInteraction GeomType.lineString none initialState

/-- C7 (code bug evidence): with a session active and zero vertices captured
(the Draw overlay's feature collection is empty, so `getFeatures()[0]` is
`undefined`), the Enter-key commit path throws instead of degrading to a
no-op — the editing session is aborted by an uncaught TypeError. -/
theorem c7_enterZeroVertices_throws :
    stateC7.drawingMode = some GeomType.lineString ∧
    handleKeyDownEnter none stateC7 =
      Except.error "TypeError: cannot read getGeometry of undefined" :=
  ⟨rfl, rfl⟩

/-! ### C9 -/

/-- C9: an insertion-triggered drawing session always uses the fixed
geometry kind Polygon: for every state (in particular whatever geometry kind
`drawType` records for the originally drawn segment) and for both menu
choices (before/after), the session created by the dropdown selection has
`geomType = polygon`, and the drawing mode switches to Polygon. -/
theorem c9_insertionAlwaysPolygon (s : AppState) (i : Nat) (pos : Side)
    (hm : s.hasMap = true) :
    ((dropdownSelect i pos s).drawRef).map Session.geomType = some GeomType.polygon ∧
    (dropdownSelect i pos s).drawingMode = some GeomType.polygon ∧
    ((dropdownSelect i pos s).drawRef).map Session.insertPosition = some (some pos) := by
  simp [dropdownSelect, addDrawingInteraction, hm, mkSession]

/-- C9 witness: the theorem applied at a state whose original segment was a
LineString, choosing "after". -/
theorem c9_insertionAlwaysPolygon_w :
    ((dropdownSelect 0 Side.after
        { initialState with drawType := some GeomType.lineString }).drawRef).map
      Session.geomType = some GeomType.polygon :=
  (c9_insertionAlwaysPolygon { initialState with drawType := some GeomType.lineString }
    0 Side.after rfl).1

end RouteDraw
